import Mathlib

/-!
# Verification of the Poseidon2 wide chip trace generator

Shallow embedding of `recursion/core/src/poseidon2_wide/external.rs`
(`Poseidon2WideChip`): the column layout, the per-round trace population
functions, trace assembly with power-of-two padding, the chip inclusion
predicate and the (empty) constraint set emitted by `Air::eval`.

The finite field is kept abstract as a commutative ring `F`; the raw
32-bit round constants of `RC_16_30_U32` are an abstract table
`RC : ℕ → ℕ → ℕ` whose entries are reduced into `F` via the canonical
`Nat`-cast (the model of `F::from_wrapped_u32`).  The two linear-mixing
primitives `external_linear_layer` and `internal_linear_layer` live in a
sibling module of the repository and are consumed as black boxes, so they
are parameters `extLin` / `intLin` of every definition that calls them.
Fixed-size arrays `[T; 8]` / `[T; 22]` indexed by `usize` are modelled as
functions out of `ℕ`; only in-range indices are ever read or written.
-/

namespace Poseidon2Wide

/-- The width of the permutation. -/
def WIDTH : ℕ := 16

def NUM_EXTERNAL_ROUNDS : ℕ := 8

def NUM_INTERNAL_ROUNDS : ℕ := 22

def NUM_ROUNDS : ℕ := NUM_EXTERNAL_ROUNDS + NUM_INTERNAL_ROUNDS

/-- Columns required for external rounds (`Poseidon2WideExternalRoundCols`). -/
structure ExternalRoundCols (F : Type) where
  state : Fin 16 → F
  sbox_deg_3 : Fin 16 → F
  sbox_deg_7 : Fin 16 → F

/-- Columns required for internal rounds (`Poseidon2WideInternalRoundCols`). -/
structure InternalRoundCols (F : Type) where
  state : Fin 16 → F
  sbox_deg_3 : F
  sbox_deg_7 : F

/-- The column layout for the chip (`Poseidon2WideCols`). -/
structure Poseidon2WideCols (F : Type) where
  input : Fin 16 → F
  output : Fin 16 → F
  external_rounds : ℕ → ExternalRoundCols F
  internal_rounds : ℕ → InternalRoundCols F

/-- The number of main trace columns: `size_of::<Poseidon2WideCols<u8>>()`,
i.e. the number of field elements in one row of the layout. -/
def NUM_POSEIDON2_WIDE_COLS : ℕ :=
  WIDTH + WIDTH + NUM_EXTERNAL_ROUNDS * (3 * WIDTH) + NUM_INTERNAL_ROUNDS * (WIDTH + 2)

variable {F : Type} [CommRing F]

/-- `add_rc` of an external round: lane `j` of the state plus the reduced
round constant `RC_16_30_U32[r][j]`. -/
def extAddRc (RC : ℕ → ℕ → ℕ) (s : Fin 16 → F) (r : ℕ) : Fin 16 → F :=
  fun j => s j + (RC r j.val : F)

/-- `sbox_deg_3` of an external round: `add_rc[j] * add_rc[j] * add_rc[j]`. -/
def extSbox3 (RC : ℕ → ℕ → ℕ) (s : Fin 16 → F) (r : ℕ) : Fin 16 → F :=
  fun j => extAddRc RC s r j * extAddRc RC s r j * extAddRc RC s r j

/-- `sbox_deg_7` of an external round:
`sbox_deg_3[j] * sbox_deg_3[j] * add_rc[j]`. -/
def extSbox7 (RC : ℕ → ℕ → ℕ) (s : Fin 16 → F) (r : ℕ) : Fin 16 → F :=
  fun j => extSbox3 RC s r j * extSbox3 RC s r j * extAddRc RC s r j

/-- `add_rc` of an internal round: lane 0 of the state plus the reduced
round constant `RC_16_30_U32[r][0]`.  Only lane 0 receives a constant. -/
def intAddRc (RC : ℕ → ℕ → ℕ) (s0 : F) (r : ℕ) : F :=
  s0 + (RC r 0 : F)

/-- `sbox_deg_3` of an internal round. -/
def intSbox3 (RC : ℕ → ℕ → ℕ) (s0 : F) (r : ℕ) : F :=
  intAddRc RC s0 r * intAddRc RC s0 r * intAddRc RC s0 r

/-- `sbox_deg_7` of an internal round. -/
def intSbox7 (RC : ℕ → ℕ → ℕ) (s0 : F) (r : ℕ) : F :=
  intSbox3 RC s0 r * intSbox3 RC s0 r * intAddRc RC s0 r

/-- The vector handed to the internal linear layer by a partial round:
the round's state with lane 0 replaced by `sbox_deg_7`. -/
def intMixInput (RC : ℕ → ℕ → ℕ) (s : Fin 16 → F) (r : ℕ) : Fin 16 → F :=
  Function.update s 0 (intSbox7 RC (s 0) r)

/-- `Poseidon2WideChip::generate_external_round`: fill in the sbox columns
of external round `r` and write the externally-mixed sbox output into the
next state location (internal round 0 after round 3, the row output after
round 7, external round `r + 1` otherwise). -/
def generate_external_round (extLin : (Fin 16 → F) → Fin 16 → F) (RC : ℕ → ℕ → ℕ)
    (cols : Poseidon2WideCols F) (r : ℕ) : Poseidon2WideCols F :=
  let round_cols := cols.external_rounds r
  let sbox_deg_3 := extSbox3 RC round_cols.state r
  let sbox_deg_7 := extSbox7 RC round_cols.state r
  let round_cols' : ExternalRoundCols F :=
    { round_cols with sbox_deg_3 := sbox_deg_3, sbox_deg_7 := sbox_deg_7 }
  let cols' : Poseidon2WideCols F :=
    { cols with external_rounds := Function.update cols.external_rounds r round_cols' }
  let next_state := extLin sbox_deg_7
  if r = NUM_EXTERNAL_ROUNDS / 2 - 1 then
    let tgt : InternalRoundCols F := { cols'.internal_rounds 0 with state := next_state }
    { cols' with internal_rounds := Function.update cols'.internal_rounds 0 tgt }
  else if r = NUM_EXTERNAL_ROUNDS - 1 then
    { cols' with output := next_state }
  else
    let tgt : ExternalRoundCols F := { cols'.external_rounds (r + 1) with state := next_state }
    { cols' with external_rounds := Function.update cols'.external_rounds (r + 1) tgt }

/-- `Poseidon2WideChip::generate_internal_round`: fill in the scalar sbox
columns of internal round `r` and write the internally-mixed vector (state
with lane 0 replaced by `sbox_deg_7`) into the next state location
(external round 4 after round 21, internal round `r + 1` otherwise). -/
def generate_internal_round (intLin : (Fin 16 → F) → Fin 16 → F) (RC : ℕ → ℕ → ℕ)
    (cols : Poseidon2WideCols F) (r : ℕ) : Poseidon2WideCols F :=
  let round_cols := cols.internal_rounds r
  let sbox_deg_3 := intSbox3 RC (round_cols.state 0) r
  let sbox_deg_7 := intSbox7 RC (round_cols.state 0) r
  let res := Function.update round_cols.state 0 sbox_deg_7
  let round_cols' : InternalRoundCols F :=
    { round_cols with sbox_deg_3 := sbox_deg_3, sbox_deg_7 := sbox_deg_7 }
  let cols' : Poseidon2WideCols F :=
    { cols with internal_rounds := Function.update cols.internal_rounds r round_cols' }
  let next_state := intLin res
  if r = NUM_INTERNAL_ROUNDS - 1 then
    let tgt : ExternalRoundCols F := { cols'.external_rounds (NUM_EXTERNAL_ROUNDS / 2) with state := next_state }
    { cols' with external_rounds := Function.update cols'.external_rounds (NUM_EXTERNAL_ROUNDS / 2) tgt }
  else
    let tgt : InternalRoundCols F := { cols'.internal_rounds (r + 1) with state := next_state }
    { cols' with internal_rounds := Function.update cols'.internal_rounds (r + 1) tgt }

/-- The zero-initialized row `[F::zero(); NUM_POSEIDON2_WIDE_COLS]`. -/
def zeroCols : Poseidon2WideCols F :=
  { input := fun _ => 0
    output := fun _ => 0
    external_rounds := fun _ => { state := fun _ => 0, sbox_deg_3 := fun _ => 0, sbox_deg_7 := fun _ => 0 }
    internal_rounds := fun _ => { state := fun _ => 0, sbox_deg_3 := 0, sbox_deg_7 := 0 } }

/-- The first two statements of the per-event body of `generate_trace`:
a zeroed row with the event input copied in and external round 0's state
seeded with the external linear layer of the input. -/
def seedRow (extLin : (Fin 16 → F) → Fin 16 → F) (input : Fin 16 → F) :
    Poseidon2WideCols F :=
  let c0 : Poseidon2WideCols F := { zeroCols with input := input }
  let seeded : ExternalRoundCols F := { c0.external_rounds 0 with state := extLin c0.input }
  { c0 with external_rounds := Function.update c0.external_rounds 0 seeded }

/-- The per-event body of `generate_trace`: start from the seeded row,
then run the first half of the external rounds, all internal rounds, and
the second half of the external rounds. -/
def populate_row (extLin intLin : (Fin 16 → F) → Fin 16 → F) (RC : ℕ → ℕ → ℕ)
    (input : Fin 16 → F) : Poseidon2WideCols F :=
  let c1 : Poseidon2WideCols F := seedRow extLin input
  let c2 := List.foldl (generate_external_round extLin RC) c1
      (List.range (NUM_EXTERNAL_ROUNDS / 2))
  let c3 := List.foldl (generate_internal_round intLin RC) c2
      (List.range NUM_INTERNAL_ROUNDS)
  let c4 := List.foldl (generate_external_round extLin RC) c3
      ((List.range NUM_EXTERNAL_ROUNDS).drop (NUM_EXTERNAL_ROUNDS / 2))
  c4

/-- A single Poseidon2 permutation invocation (`Poseidon2Event`). -/
structure Poseidon2Event (F : Type) where
  input : Fin 16 → F

/-- Modelled from the spec: the `ExecutionRecord` collaborator type, of
which this chip only ever touches the list of Poseidon2 invocations. -/
structure ExecutionRecord (F : Type) where
  poseidon2_events : List (Poseidon2Event F)

/-- A row-major matrix: a flat value buffer together with the row width. -/
structure RowMajorMatrix (F : Type) where
  values : List F
  width : ℕ

/-- The height of a row-major matrix. -/
def RowMajorMatrix.height (m : RowMajorMatrix F) : ℕ := m.values.length / m.width

/-- The entry of a row-major matrix at row `i`, column `j` (zero when out
of range). -/
def RowMajorMatrix.entry (m : RowMajorMatrix F) (i j : ℕ) : F :=
  m.values.getD (i * m.width + j) 0

/-- Modelled from the spec: `usize::next_power_of_two`, the smallest power
of two that is `≥ n` (and `1` when `n = 0`). -/
def next_power_of_two (n : ℕ) : ℕ := 2 ^ Nat.clog 2 n

/-- Modelled from the spec: `sp1_core::utils::pad_to_power_of_two::<N, F>`,
which lives in the repository outside the provided source tree.  It grows
the flat value buffer with zeroes until the row count `values.len() / N`
reaches the next power of two (one row when the buffer is empty). -/
def pad_to_power_of_two (N : ℕ) (values : List F) : List F :=
  values ++ List.replicate (next_power_of_two (values.length / N) * N - values.length) 0

/-- Flattening of an external-round column block, in declaration order. -/
def ExternalRoundCols.toList (c : ExternalRoundCols F) : List F :=
  ((List.finRange 16).map c.state) ++ ((List.finRange 16).map c.sbox_deg_3)
    ++ ((List.finRange 16).map c.sbox_deg_7)

/-- Flattening of an internal-round column block, in declaration order. -/
def InternalRoundCols.toList (c : InternalRoundCols F) : List F :=
  ((List.finRange 16).map c.state) ++ [c.sbox_deg_3, c.sbox_deg_7]

/-- Flattening of one row of the column layout, in `repr(C)` declaration
order. -/
def Poseidon2WideCols.toList (c : Poseidon2WideCols F) : List F :=
  ((List.finRange 16).map c.input) ++ ((List.finRange 16).map c.output)
    ++ ((List.range NUM_EXTERNAL_ROUNDS).map fun r => (c.external_rounds r).toList).flatten
    ++ ((List.range NUM_INTERNAL_ROUNDS).map fun r => (c.internal_rounds r).toList).flatten

/-- The list of populated rows of `generate_trace`, one per invocation, in
invocation order. -/
def traceRows (extLin intLin : (Fin 16 → F) → Fin 16 → F) (RC : ℕ → ℕ → ℕ)
    (events : List (Poseidon2Event F)) : List (Poseidon2WideCols F) :=
  events.map fun event => populate_row extLin intLin RC event.input

/-- The flat, unpadded value buffer of `generate_trace`
(`rows.into_iter().flatten()`). -/
def traceValues (extLin intLin : (Fin 16 → F) → Fin 16 → F) (RC : ℕ → ℕ → ℕ)
    (events : List (Poseidon2Event F)) : List F :=
  ((traceRows extLin intLin RC events).map Poseidon2WideCols.toList).flatten

/-- `MachineAir::generate_trace` for `Poseidon2WideChip`: populate one row
per invocation of the input record, flatten into a row-major matrix of
width `NUM_POSEIDON2_WIDE_COLS`, and pad the height to a power of two.
The `&mut` output record parameter is ignored by the source (bound to
`_`), so it is returned unchanged. -/
def generate_trace (extLin intLin : (Fin 16 → F) → Fin 16 → F) (RC : ℕ → ℕ → ℕ)
    (input : ExecutionRecord F) (output : ExecutionRecord F) :
    RowMajorMatrix F × ExecutionRecord F :=
  let trace : RowMajorMatrix F :=
    { values := traceValues extLin intLin RC input.poseidon2_events
      width := NUM_POSEIDON2_WIDE_COLS }
  ({ trace with values := pad_to_power_of_two NUM_POSEIDON2_WIDE_COLS trace.values },
    output)

/-- `MachineAir::included` for `Poseidon2WideChip`:
`!record.poseidon2_events.is_empty()`. -/
def included (record : ExecutionRecord F) : Bool :=
  !record.poseidon2_events.isEmpty

/-- `BaseAir::width` for `Poseidon2WideChip`. -/
def width : ℕ := NUM_POSEIDON2_WIDE_COLS

/-- The polynomial expressions asserted to be zero by `Air::eval` for
`Poseidon2WideChip`: the body only loads the current row
(`main.row_slice(0)`) and emits no assertion at all, so the list is
empty. -/
def evalAssertedExprs (_row : Poseidon2WideCols F) : List F := []

/-- A row satisfies the constraint set actually exposed by `Air::eval`
iff every asserted expression vanishes. -/
def evalConstraintsHold (row : Poseidon2WideCols F) : Prop :=
  ∀ e ∈ evalAssertedExprs row, e = 0

/-- Modelled from the spec: the full constraint set the chip is required
to enforce against a single row — the initial binding of external round
0's state, the degree-3/degree-7 sbox identities and linear-layer
next-state bindings of every external round, the lane-0 sbox identities
and (lanes-unchanged) mix bindings of every internal round, and the final
output binding. -/
def specConstraintsHold (extLin intLin : (Fin 16 → F) → Fin 16 → F) (RC : ℕ → ℕ → ℕ)
    (row : Poseidon2WideCols F) : Prop :=
  (row.external_rounds 0).state = extLin row.input
  ∧ (∀ r : Fin 8, ∀ j : Fin 16,
      (row.external_rounds r.val).sbox_deg_3 j
        = ((row.external_rounds r.val).state j + (RC r.val j.val : F)) ^ 3
      ∧ (row.external_rounds r.val).sbox_deg_7 j
        = (row.external_rounds r.val).sbox_deg_3 j * (row.external_rounds r.val).sbox_deg_3 j
            * ((row.external_rounds r.val).state j + (RC r.val j.val : F)))
  ∧ (∀ r : Fin 8, r.val ≠ 3 → r.val ≠ 7 →
      (row.external_rounds (r.val + 1)).state = extLin (row.external_rounds r.val).sbox_deg_7)
  ∧ (row.internal_rounds 0).state = extLin (row.external_rounds 3).sbox_deg_7
  ∧ (∀ r : Fin 22,
      (row.internal_rounds r.val).sbox_deg_3
        = ((row.internal_rounds r.val).state 0 + (RC r.val 0 : F)) ^ 3
      ∧ (row.internal_rounds r.val).sbox_deg_7
        = (row.internal_rounds r.val).sbox_deg_3 * (row.internal_rounds r.val).sbox_deg_3
            * ((row.internal_rounds r.val).state 0 + (RC r.val 0 : F)))
  ∧ (∀ r : Fin 22, r.val ≠ 21 →
      (row.internal_rounds (r.val + 1)).state
        = intLin (Function.update (row.internal_rounds r.val).state 0
            (row.internal_rounds r.val).sbox_deg_7))
  ∧ (row.external_rounds 4).state
      = intLin (Function.update (row.internal_rounds 21).state 0
          (row.internal_rounds 21).sbox_deg_7)
  ∧ row.output = extLin (row.external_rounds 7).sbox_deg_7


/-! ### Effect of one round-generation step on the row -/

section RoundEffects

variable (extLin intLin : (Fin 16 → F) → Fin 16 → F) (RC : ℕ → ℕ → ℕ)

@[simp] lemma generate_external_round_input (c : Poseidon2WideCols F) (r : ℕ) :
    (generate_external_round extLin RC c r).input = c.input := by
  simp only [generate_external_round]
  split
  · rfl
  · split <;> rfl

@[simp] lemma generate_external_round_output_of_ne (c : Poseidon2WideCols F) (r : ℕ) (hr : r ≠ 7) :
    (generate_external_round extLin RC c r).output = c.output := by
  simp only [generate_external_round]
  split
  · rfl
  · split
    · rename_i h
      norm_num [NUM_EXTERNAL_ROUNDS] at h
      omega
    · rfl

@[simp] lemma generate_external_round_output_seven (c : Poseidon2WideCols F) :
    (generate_external_round extLin RC c 7).output
      = extLin (extSbox7 RC (c.external_rounds 7).state 7) := by
  simp only [generate_external_round]
  split
  · rename_i h
    norm_num [NUM_EXTERNAL_ROUNDS] at h
  · split
    · rfl
    · rename_i h
      norm_num [NUM_EXTERNAL_ROUNDS] at h

@[simp] lemma generate_external_round_ext_of_ne (c : Poseidon2WideCols F) (r i : ℕ)
    (hi : i ≠ r) (hi' : i ≠ r + 1) :
    (generate_external_round extLin RC c r).external_rounds i = c.external_rounds i := by
  simp only [generate_external_round]
  split
  · simp [Function.update_apply, hi]
  · split
    · simp [Function.update_apply, hi]
    · simp [Function.update_apply, hi, hi']

@[simp] lemma generate_external_round_ext_three_of_ne (c : Poseidon2WideCols F) (i : ℕ)
    (hi : i ≠ 3) :
    (generate_external_round extLin RC c 3).external_rounds i = c.external_rounds i := by
  simp only [generate_external_round]
  split
  · simp [Function.update_apply, hi]
  · rename_i h
    norm_num [NUM_EXTERNAL_ROUNDS] at h

@[simp] lemma generate_external_round_state_self (c : Poseidon2WideCols F) (r : ℕ) :
    ((generate_external_round extLin RC c r).external_rounds r).state
      = (c.external_rounds r).state := by
  simp only [generate_external_round]
  split
  · simp [Function.update_apply]
  · split
    · simp [Function.update_apply]
    · simp [Function.update_apply]

@[simp] lemma generate_external_round_sbox3_self (c : Poseidon2WideCols F) (r : ℕ) :
    ((generate_external_round extLin RC c r).external_rounds r).sbox_deg_3
      = extSbox3 RC (c.external_rounds r).state r := by
  simp only [generate_external_round]
  split
  · simp [Function.update_apply]
  · split
    · simp [Function.update_apply]
    · simp [Function.update_apply]

@[simp] lemma generate_external_round_sbox7_self (c : Poseidon2WideCols F) (r : ℕ) :
    ((generate_external_round extLin RC c r).external_rounds r).sbox_deg_7
      = extSbox7 RC (c.external_rounds r).state r := by
  simp only [generate_external_round]
  split
  · simp [Function.update_apply]
  · split
    · simp [Function.update_apply]
    · simp [Function.update_apply]

@[simp] lemma generate_external_round_next_state (c : Poseidon2WideCols F) (r i : ℕ)
    (hi : i = r + 1) (h3 : r ≠ 3) (h7 : r ≠ 7) :
    ((generate_external_round extLin RC c r).external_rounds i).state
      = extLin (extSbox7 RC (c.external_rounds r).state r) := by
  subst hi
  simp only [generate_external_round]
  split
  · rename_i h
    norm_num [NUM_EXTERNAL_ROUNDS] at h
    omega
  · split
    · rename_i h
      norm_num [NUM_EXTERNAL_ROUNDS] at h
      omega
    · simp [Function.update_apply]

@[simp] lemma generate_external_round_int_of_ne_three (c : Poseidon2WideCols F) (r : ℕ)
    (hr : r ≠ 3) :
    (generate_external_round extLin RC c r).internal_rounds = c.internal_rounds := by
  simp only [generate_external_round]
  split
  · rename_i h
    norm_num [NUM_EXTERNAL_ROUNDS] at h
    omega
  · split <;> rfl

@[simp] lemma generate_external_round_int_zero_state_three (c : Poseidon2WideCols F) :
    ((generate_external_round extLin RC c 3).internal_rounds 0).state
      = extLin (extSbox7 RC (c.external_rounds 3).state 3) := by
  simp only [generate_external_round]
  split
  · simp [Function.update_apply]
  · rename_i h
    norm_num [NUM_EXTERNAL_ROUNDS] at h

@[simp] lemma generate_external_round_int_three_of_ne (c : Poseidon2WideCols F) (i : ℕ)
    (hi : i ≠ 0) :
    (generate_external_round extLin RC c 3).internal_rounds i = c.internal_rounds i := by
  simp only [generate_external_round]
  split
  · simp [Function.update_apply, hi]
  · rename_i h
    norm_num [NUM_EXTERNAL_ROUNDS] at h

@[simp] lemma generate_internal_round_input (c : Poseidon2WideCols F) (r : ℕ) :
    (generate_internal_round intLin RC c r).input = c.input := by
  simp only [generate_internal_round]
  split <;> rfl

@[simp] lemma generate_internal_round_output (c : Poseidon2WideCols F) (r : ℕ) :
    (generate_internal_round intLin RC c r).output = c.output := by
  simp only [generate_internal_round]
  split <;> rfl

@[simp] lemma generate_internal_round_ext_of_ne (c : Poseidon2WideCols F) (r : ℕ) (hr : r ≠ 21) :
    (generate_internal_round intLin RC c r).external_rounds = c.external_rounds := by
  simp only [generate_internal_round]
  split
  · rename_i h
    norm_num [NUM_INTERNAL_ROUNDS] at h
    omega
  · rfl

@[simp] lemma generate_internal_round_ext_last_of_ne (c : Poseidon2WideCols F) (i : ℕ)
    (hi : i ≠ 4) :
    (generate_internal_round intLin RC c 21).external_rounds i = c.external_rounds i := by
  simp only [generate_internal_round]
  split
  · simp [Function.update_apply, NUM_EXTERNAL_ROUNDS, hi]
  · rename_i h
    norm_num [NUM_INTERNAL_ROUNDS] at h

@[simp] lemma generate_internal_round_ext_four_state_last (c : Poseidon2WideCols F) :
    ((generate_internal_round intLin RC c 21).external_rounds 4).state
      = intLin (intMixInput RC (c.internal_rounds 21).state 21) := by
  simp only [generate_internal_round]
  split
  · simp [Function.update_apply, NUM_EXTERNAL_ROUNDS, intMixInput]
  · rename_i h
    norm_num [NUM_INTERNAL_ROUNDS] at h

@[simp] lemma generate_internal_round_int_state_of_ne (c : Poseidon2WideCols F) (r i : ℕ)
    (hi : i ≠ r + 1) :
    ((generate_internal_round intLin RC c r).internal_rounds i).state
      = (c.internal_rounds i).state := by
  simp only [generate_internal_round]
  split
  · by_cases h : i = r
    · subst h
      simp [Function.update_apply]
    · simp [Function.update_apply, h]
  · by_cases h : i = r
    · subst h
      simp [Function.update_apply, hi]
    · simp [Function.update_apply, hi, h]

@[simp] lemma generate_internal_round_int_sbox3_of_ne (c : Poseidon2WideCols F) (r i : ℕ)
    (hi : i ≠ r) :
    ((generate_internal_round intLin RC c r).internal_rounds i).sbox_deg_3
      = (c.internal_rounds i).sbox_deg_3 := by
  simp only [generate_internal_round]
  split
  · simp [Function.update_apply, hi]
  · by_cases h : i = r + 1
    · subst h
      simp [Function.update_apply, hi]
    · simp [Function.update_apply, hi, h]

@[simp] lemma generate_internal_round_int_sbox7_of_ne (c : Poseidon2WideCols F) (r i : ℕ)
    (hi : i ≠ r) :
    ((generate_internal_round intLin RC c r).internal_rounds i).sbox_deg_7
      = (c.internal_rounds i).sbox_deg_7 := by
  simp only [generate_internal_round]
  split
  · simp [Function.update_apply, hi]
  · by_cases h : i = r + 1
    · subst h
      simp [Function.update_apply, hi]
    · simp [Function.update_apply, hi, h]

@[simp] lemma generate_internal_round_sbox3_self (c : Poseidon2WideCols F) (r : ℕ) :
    ((generate_internal_round intLin RC c r).internal_rounds r).sbox_deg_3
      = intSbox3 RC ((c.internal_rounds r).state 0) r := by
  simp only [generate_internal_round]
  split
  · simp [Function.update_apply]
  · simp [Function.update_apply]

@[simp] lemma generate_internal_round_sbox7_self (c : Poseidon2WideCols F) (r : ℕ) :
    ((generate_internal_round intLin RC c r).internal_rounds r).sbox_deg_7
      = intSbox7 RC ((c.internal_rounds r).state 0) r := by
  simp only [generate_internal_round]
  split
  · simp [Function.update_apply]
  · simp [Function.update_apply]

@[simp] lemma generate_internal_round_int_next (c : Poseidon2WideCols F) (r i : ℕ)
    (hi : i = r + 1) (hr : r ≠ 21) :
    ((generate_internal_round intLin RC c r).internal_rounds i).state
      = intLin (intMixInput RC (c.internal_rounds r).state r) := by
  subst hi
  simp only [generate_internal_round]
  split
  · rename_i h
    norm_num [NUM_INTERNAL_ROUNDS] at h
    omega
  · simp [Function.update_apply, intMixInput]

@[simp] lemma seedRow_input (input : Fin 16 → F) :
    (seedRow extLin input).input = input := rfl

@[simp] lemma seedRow_ext_zero_state (input : Fin 16 → F) :
    ((seedRow extLin input).external_rounds 0).state = extLin input := by
  simp [seedRow, Function.update_apply]

@[simp] lemma range_half_external : List.range (NUM_EXTERNAL_ROUNDS / 2) = [0, 1, 2, 3] := rfl

@[simp] lemma range_drop_external :
    (List.range NUM_EXTERNAL_ROUNDS).drop (NUM_EXTERNAL_ROUNDS / 2) = [4, 5, 6, 7] := rfl

@[simp] lemma range_internal :
    List.range NUM_INTERNAL_ROUNDS
      = [0, 1, 2, 3, 4, 5, 6, 7, 8, 9, 10, 11, 12, 13, 14, 15, 16, 17, 18, 19, 20, 21] := rfl

@[simp] lemma populate_row_eq (input : Fin 16 → F) :
    populate_row extLin intLin RC input
      = List.foldl (generate_external_round extLin RC)
          (List.foldl (generate_internal_round intLin RC)
            (List.foldl (generate_external_round extLin RC) (seedRow extLin input)
              (List.range (NUM_EXTERNAL_ROUNDS / 2)))
            (List.range NUM_INTERNAL_ROUNDS))
          ((List.range NUM_EXTERNAL_ROUNDS).drop (NUM_EXTERNAL_ROUNDS / 2)) := rfl

end RoundEffects

/-! ### Algebraic forms of the sbox helpers -/

section SboxAlgebra

variable (RC : ℕ → ℕ → ℕ)

lemma extSbox3_apply (s : Fin 16 → F) (r : ℕ) (j : Fin 16) :
    extSbox3 RC s r j = (s j + (RC r j.val : F)) ^ 3 := by
  simp only [extSbox3, extAddRc]
  ring

lemma extSbox7_apply (s : Fin 16 → F) (r : ℕ) (j : Fin 16) :
    extSbox7 RC s r j = (s j + (RC r j.val : F)) ^ 7 := by
  simp only [extSbox7, extSbox3, extAddRc]
  ring

lemma extSbox7_as_sbox3 (s : Fin 16 → F) (r : ℕ) (j : Fin 16) :
    extSbox7 RC s r j = extSbox3 RC s r j * extSbox3 RC s r j * (s j + (RC r j.val : F)) := by
  simp only [extSbox7, extSbox3, extAddRc]

lemma intSbox3_eq (s0 : F) (r : ℕ) :
    intSbox3 RC s0 r = (s0 + (RC r 0 : F)) ^ 3 := by
  simp only [intSbox3, intAddRc]
  ring

lemma intSbox7_eq (s0 : F) (r : ℕ) :
    intSbox7 RC s0 r = (s0 + (RC r 0 : F)) ^ 7 := by
  simp only [intSbox7, intSbox3, intAddRc]
  ring

lemma intSbox7_as_sbox3 (s0 : F) (r : ℕ) :
    intSbox7 RC s0 r = intSbox3 RC s0 r * intSbox3 RC s0 r * (s0 + (RC r 0 : F)) := by
  simp only [intSbox7, intSbox3, intAddRc]

lemma intSbox7_pow_form (s0 : F) (r : ℕ) :
    intSbox7 RC s0 r = ((s0 + (RC r 0 : F)) ^ 3) ^ 2 * (s0 + (RC r 0 : F)) := by
  simp only [intSbox7, intSbox3, intAddRc]
  ring

lemma intMixInput_zero (s : Fin 16 → F) (r : ℕ) :
    intMixInput RC s r 0 = intSbox7 RC (s 0) r := by
  simp [intMixInput]

lemma intMixInput_of_ne (s : Fin 16 → F) (r : ℕ) (j : Fin 16) (hj : j ≠ 0) :
    intMixInput RC s r j = s j := by
  simp [intMixInput, Function.update_noteq hj]

end SboxAlgebra

/-! ### The trace depends on the round-constant table only through rows 0–21 -/

section Congruence

variable (extLin intLin : (Fin 16 → F) → Fin 16 → F)

lemma generate_external_round_congr (RC RC' : ℕ → ℕ → ℕ) (c : Poseidon2WideCols F) (r : ℕ)
    (h : ∀ j, j < 16 → RC r j = RC' r j) :
    generate_external_round extLin RC c r = generate_external_round extLin RC' c r := by
  have ha : extAddRc (F := F) RC (c.external_rounds r).state r
      = extAddRc RC' (c.external_rounds r).state r := by
    funext j
    simp [extAddRc, h j.val j.isLt]
  have h3 : extSbox3 (F := F) RC (c.external_rounds r).state r
      = extSbox3 RC' (c.external_rounds r).state r := by
    funext j
    simp [extSbox3, ha]
  have h7 : extSbox7 (F := F) RC (c.external_rounds r).state r
      = extSbox7 RC' (c.external_rounds r).state r := by
    funext j
    simp [extSbox7, h3, ha]
  simp only [generate_external_round, h3, h7]

lemma generate_internal_round_congr (RC RC' : ℕ → ℕ → ℕ) (c : Poseidon2WideCols F) (r : ℕ)
    (h0 : RC r 0 = RC' r 0) :
    generate_internal_round intLin RC c r = generate_internal_round intLin RC' c r := by
  have ha : intAddRc (F := F) RC ((c.internal_rounds r).state 0) r
      = intAddRc RC' ((c.internal_rounds r).state 0) r := by
    simp [intAddRc, h0]
  have h3 : intSbox3 (F := F) RC ((c.internal_rounds r).state 0) r
      = intSbox3 RC' ((c.internal_rounds r).state 0) r := by
    simp [intSbox3, ha]
  have h7 : intSbox7 (F := F) RC ((c.internal_rounds r).state 0) r
      = intSbox7 RC' ((c.internal_rounds r).state 0) r := by
    simp [intSbox7, h3, ha]
  simp only [generate_internal_round, h3, h7]

lemma foldl_generate_external_round_congr (RC RC' : ℕ → ℕ → ℕ) (l : List ℕ)
    (h : ∀ r ∈ l, ∀ j, j < 16 → RC r j = RC' r j) (c : Poseidon2WideCols F) :
    List.foldl (generate_external_round extLin RC) c l
      = List.foldl (generate_external_round extLin RC') c l := by
  induction l generalizing c with
  | nil => rfl
  | cons a t ih =>
      rw [List.foldl_cons, List.foldl_cons,
        generate_external_round_congr extLin RC RC' c a (h a (List.mem_cons_self a t)),
        ih (fun r hr j hj => h r (List.mem_cons_of_mem a hr) j hj)]

lemma foldl_generate_internal_round_congr (RC RC' : ℕ → ℕ → ℕ) (l : List ℕ)
    (h : ∀ r ∈ l, RC r 0 = RC' r 0) (c : Poseidon2WideCols F) :
    List.foldl (generate_internal_round intLin RC) c l
      = List.foldl (generate_internal_round intLin RC') c l := by
  induction l generalizing c with
  | nil => rfl
  | cons a t ih =>
      rw [List.foldl_cons, List.foldl_cons,
        generate_internal_round_congr intLin RC RC' c a (h a (List.mem_cons_self a t)),
        ih (fun r hr => h r (List.mem_cons_of_mem a hr))]

lemma populate_row_congr (RC RC' : ℕ → ℕ → ℕ)
    (h : ∀ r j, r < 22 → j < 16 → RC r j = RC' r j) (input : Fin 16 → F) :
    populate_row extLin intLin RC input = populate_row extLin intLin RC' input := by
  rw [populate_row_eq, populate_row_eq]
  rw [foldl_generate_external_round_congr extLin RC RC' _
      (fun r hr j hj => h r j (by simp at hr; omega) hj)]
  rw [foldl_generate_internal_round_congr intLin RC RC' _
      (fun r hr => h r 0 (by simp at hr; omega) (by omega))]
  rw [foldl_generate_external_round_congr extLin RC RC' _
      (fun r hr j hj => h r j (by simp at hr; omega) hj)]

end Congruence

/-! ### Lengths, padding and matrix shape -/

section MatrixLayer

variable (extLin intLin : (Fin 16 → F) → Fin 16 → F) (RC : ℕ → ℕ → ℕ)

lemma range_external : List.range NUM_EXTERNAL_ROUNDS = [0, 1, 2, 3, 4, 5, 6, 7] := rfl

lemma toList_length (c : Poseidon2WideCols F) :
    (Poseidon2WideCols.toList c).length = NUM_POSEIDON2_WIDE_COLS := by
  simp only [Poseidon2WideCols.toList, ExternalRoundCols.toList, InternalRoundCols.toList,
    range_external, range_internal, List.map_cons, List.map_nil, List.flatten_cons,
    List.flatten_nil]
  simp [NUM_POSEIDON2_WIDE_COLS, NUM_EXTERNAL_ROUNDS, NUM_INTERNAL_ROUNDS, WIDTH]

lemma traceValues_nil :
    traceValues extLin intLin RC ([] : List (Poseidon2Event F)) = [] := rfl

lemma traceValues_cons (e : Poseidon2Event F) (t : List (Poseidon2Event F)) :
    traceValues extLin intLin RC (e :: t)
      = Poseidon2WideCols.toList (populate_row extLin intLin RC e.input)
          ++ traceValues extLin intLin RC t := by
  simp only [traceValues, traceRows, List.map_cons, List.flatten_cons]

lemma traceValues_append (A B : List (Poseidon2Event F)) :
    traceValues extLin intLin RC (A ++ B)
      = traceValues extLin intLin RC A ++ traceValues extLin intLin RC B := by
  simp only [traceValues, traceRows, List.map_append, List.flatten_append]

set_option maxRecDepth 4000 in
lemma traceValues_length (events : List (Poseidon2Event F)) :
    (traceValues extLin intLin RC events).length
      = events.length * NUM_POSEIDON2_WIDE_COLS := by
  induction events with
  | nil => rfl
  | cons e t ih =>
      rw [traceValues_cons, List.length_append, ih, toList_length, List.length_cons,
        Nat.succ_mul]
      omega

lemma le_next_power_of_two (n : ℕ) : n ≤ next_power_of_two n :=
  Nat.le_pow_clog (by norm_num) n

lemma next_power_of_two_zero : next_power_of_two 0 = 1 := by
  simp [next_power_of_two]

lemma next_power_of_two_pow (k : ℕ) : next_power_of_two (2 ^ k) = 2 ^ k := by
  rw [next_power_of_two, Nat.clog_pow 2 k (by norm_num)]

lemma pad_to_power_of_two_length (N m : ℕ) (hN : N ≠ 0) (values : List F)
    (h : values.length = m * N) :
    (pad_to_power_of_two N values).length = next_power_of_two m * N := by
  unfold pad_to_power_of_two
  rw [List.length_append, List.length_replicate, h,
    Nat.mul_div_cancel m (Nat.pos_of_ne_zero hN)]
  have h2 : m * N ≤ next_power_of_two m * N :=
    Nat.mul_le_mul_right N (le_next_power_of_two m)
  omega

lemma getD_replicate_zero (k n : ℕ) : (List.replicate k (0 : F)).getD n 0 = 0 := by
  induction k generalizing n with
  | zero => rfl
  | succ k ih =>
      cases n with
      | zero => rfl
      | succ n => simp only [List.replicate_succ, List.getD_cons_succ, ih n]

end MatrixLayer

/-! ### The claims -/

section Claims

variable (extLin intLin : (Fin 16 → F) → Fin 16 → F) (RC : ℕ → ℕ → ℕ)

/-- C2: for every invocation its trace row is computed by exactly the
round schedule — the row stores the invocation input; external round 0's
state is `externalLinearLayer(input)` (a pure mix, not a round); every
full round `r` mixes its degree-7 sbox output through the external linear
layer into the next block's state (into internal round 0's state when
`r = 3`, into the row output when `r = 7`); every partial round `r` mixes
its lane-0-substituted state through the internal linear layer into the
next internal block's state (into external round 4's state when
`r = 21`); and the row output holds the final mix of round 7, i.e. the
permutation result. -/
theorem claim_C2_round_schedule (input : Fin 16 → F) :
    (populate_row extLin intLin RC input).input = input
    ∧ ((populate_row extLin intLin RC input).external_rounds 0).state = extLin input
    ∧ (∀ r : ℕ, r < 7 → r ≠ 3 →
        ((populate_row extLin intLin RC input).external_rounds (r + 1)).state
          = extLin (extSbox7 RC ((populate_row extLin intLin RC input).external_rounds r).state r))
    ∧ ((populate_row extLin intLin RC input).internal_rounds 0).state
        = extLin (extSbox7 RC ((populate_row extLin intLin RC input).external_rounds 3).state 3)
    ∧ (∀ r : ℕ, r < 21 →
        ((populate_row extLin intLin RC input).internal_rounds (r + 1)).state
          = intLin (intMixInput RC ((populate_row extLin intLin RC input).internal_rounds r).state r))
    ∧ ((populate_row extLin intLin RC input).external_rounds 4).state
        = intLin (intMixInput RC ((populate_row extLin intLin RC input).internal_rounds 21).state 21)
    ∧ (populate_row extLin intLin RC input).output
        = extLin (extSbox7 RC ((populate_row extLin intLin RC input).external_rounds 7).state 7) := by
  refine ⟨by simp, by simp, fun r h1 h2 => ?_, by simp, fun r h1 => ?_, by simp, by simp⟩
  · interval_cases r <;> simp_all
  · interval_cases r <;> simp

theorem claim_C2_witness :
    (0 : ℕ) < 7 ∧ (0 : ℕ) ≠ 3
    ∧ ((populate_row (F := ZMod 2013265921) id id (fun _ _ => 0)
          (fun _ => 2013265920)).external_rounds 1).state
        = id (extSbox7 (fun _ _ => 0)
            ((populate_row (F := ZMod 2013265921) id id (fun _ _ => 0)
              (fun _ => 2013265920)).external_rounds 0).state 0) :=
  ⟨by decide, by decide,
    (claim_C2_round_schedule id id (fun _ _ => 0) (fun _ => 2013265920)).2.2.1 0
      (by decide) (by decide)⟩

/-- C3: in every generated trace row the witnessed sbox columns satisfy,
for every external round `r` and lane `j`,
`sbox_deg_3 = (state + rc)^3` and `sbox_deg_7 = (state + rc)^7` with
`sbox_deg_7 = sbox_deg_3 * sbox_deg_3 * (state + rc)`, where
`rc = RC_16_30_U32[r][j]` reduced into the field; and for every internal
round the same identities hold for the lane-0 scalars.  This holds for
every field-element input (the field is abstract, so the edge values `0`
and `p − 1` are instances). -/
theorem claim_C3_sbox_identities (input : Fin 16 → F) :
    (∀ r : ℕ, r < 8 → ∀ j : Fin 16,
        ((populate_row extLin intLin RC input).external_rounds r).sbox_deg_3 j
          = (((populate_row extLin intLin RC input).external_rounds r).state j
              + (RC r j.val : F)) ^ 3
        ∧ ((populate_row extLin intLin RC input).external_rounds r).sbox_deg_7 j
          = (((populate_row extLin intLin RC input).external_rounds r).state j
              + (RC r j.val : F)) ^ 7
        ∧ ((populate_row extLin intLin RC input).external_rounds r).sbox_deg_7 j
          = ((populate_row extLin intLin RC input).external_rounds r).sbox_deg_3 j
              * ((populate_row extLin intLin RC input).external_rounds r).sbox_deg_3 j
              * (((populate_row extLin intLin RC input).external_rounds r).state j
                  + (RC r j.val : F)))
    ∧ (∀ r : ℕ, r < 22 →
        ((populate_row extLin intLin RC input).internal_rounds r).sbox_deg_3
          = (((populate_row extLin intLin RC input).internal_rounds r).state 0
              + (RC r 0 : F)) ^ 3
        ∧ ((populate_row extLin intLin RC input).internal_rounds r).sbox_deg_7
          = (((populate_row extLin intLin RC input).internal_rounds r).state 0
              + (RC r 0 : F)) ^ 7
        ∧ ((populate_row extLin intLin RC input).internal_rounds r).sbox_deg_7
          = ((populate_row extLin intLin RC input).internal_rounds r).sbox_deg_3
              * ((populate_row extLin intLin RC input).internal_rounds r).sbox_deg_3
              * (((populate_row extLin intLin RC input).internal_rounds r).state 0
                  + (RC r 0 : F))) := by
  constructor
  · intro r hr j
    interval_cases r <;>
      exact ⟨by simp [extSbox3_apply], by simp [extSbox7_apply], by simp [extSbox7_as_sbox3]⟩
  · intro r hr
    interval_cases r <;>
      exact ⟨by simp [intSbox3_eq], by simp [intSbox7_eq], by simp [intSbox7_as_sbox3]⟩

theorem claim_C3_witness :
    (0 : ℕ) < 8
    ∧ ((populate_row (F := ZMod 2013265921) id id (fun _ _ => 0)
          (fun _ => 2013265920)).external_rounds 0).sbox_deg_3 0
        = (((populate_row (F := ZMod 2013265921) id id (fun _ _ => 0)
            (fun _ => 2013265920)).external_rounds 0).state 0
            + ((0 : ℕ) : ZMod 2013265921)) ^ 3 :=
  ⟨by decide,
    ((claim_C3_sbox_identities id id (fun _ _ => 0) (fun _ => 2013265920)).1 0
      (by decide) 0).1⟩

/-- C4: round constants are indexed per-phase with the round index
directly into the shared 30-row table — external round `r` adds the
reduced constant of table row `r`, lane `j`, to lane `j`; internal round
`r` adds the reduced constant of table row `r`, lane 0, to lane 0 only;
and the whole trace row is unchanged under any modification of the table
rows `≥ 22`, so the three phases reuse the overlapping row ranges
`0..4`, `0..22` and `4..8` rather than disjoint cumulative offsets
across all 30 rows. -/
theorem claim_C4_round_constant_indexing (input : Fin 16 → F) :
    (∀ r : ℕ, r < 8 → ∀ j : Fin 16,
        ((populate_row extLin intLin RC input).external_rounds r).sbox_deg_3 j
          = (((populate_row extLin intLin RC input).external_rounds r).state j
              + (RC r j.val : F)) ^ 3)
    ∧ (∀ r : ℕ, r < 22 →
        ((populate_row extLin intLin RC input).internal_rounds r).sbox_deg_3
          = (((populate_row extLin intLin RC input).internal_rounds r).state 0
              + (RC r 0 : F)) ^ 3)
    ∧ (∀ RC' : ℕ → ℕ → ℕ, (∀ r j, r < 22 → j < 16 → RC r j = RC' r j) →
        populate_row extLin intLin RC input = populate_row extLin intLin RC' input) := by
  refine ⟨fun r hr j => ?_, fun r hr => ?_, fun RC' h => populate_row_congr extLin intLin RC RC' h input⟩
  · interval_cases r <;> simp [extSbox3_apply]
  · interval_cases r <;> simp [intSbox3_eq]

theorem claim_C4_witness :
    (4 : ℕ) < 22
    ∧ ((populate_row (F := ZMod 2013265921) id id (fun _ _ => 0)
          (fun _ => 2013265920)).internal_rounds 4).sbox_deg_3
        = (((populate_row (F := ZMod 2013265921) id id (fun _ _ => 0)
            (fun _ => 2013265920)).internal_rounds 4).state 0
            + ((0 : ℕ) : ZMod 2013265921)) ^ 3 :=
  ⟨by decide,
    (claim_C4_round_constant_indexing id id (fun _ _ => 0) (fun _ => 2013265920)).2.1 4
      (by decide)⟩

/-- C8: in every partial (internal) round of every generated row, the
vector handed to the internal linear layer is the round's state with lane
0 replaced by the witnessed `sbox_deg_7` and lanes 1..16 passed through
unchanged; the lane-0 value it receives is built from `state 0` plus the
single round constant `RC_16_30_U32[r][0]` (only lane 0 receives a
constant and the nonlinear step); and the mixed vector is exactly what is
written into the next state location. -/
theorem claim_C8_partial_round_frame (input : Fin 16 → F) (r : ℕ) (hr : r < 22) :
    (∀ j : Fin 16, j ≠ 0 →
        intMixInput RC ((populate_row extLin intLin RC input).internal_rounds r).state r j
          = ((populate_row extLin intLin RC input).internal_rounds r).state j)
    ∧ intMixInput RC ((populate_row extLin intLin RC input).internal_rounds r).state r 0
        = ((populate_row extLin intLin RC input).internal_rounds r).sbox_deg_7
    ∧ ((populate_row extLin intLin RC input).internal_rounds r).sbox_deg_7
        = ((((populate_row extLin intLin RC input).internal_rounds r).state 0
            + (RC r 0 : F)) ^ 3) ^ 2
            * (((populate_row extLin intLin RC input).internal_rounds r).state 0
                + (RC r 0 : F))
    ∧ (r < 21 →
        ((populate_row extLin intLin RC input).internal_rounds (r + 1)).state
          = intLin (intMixInput RC
              ((populate_row extLin intLin RC input).internal_rounds r).state r))
    ∧ (r = 21 →
        ((populate_row extLin intLin RC input).external_rounds 4).state
          = intLin (intMixInput RC
              ((populate_row extLin intLin RC input).internal_rounds r).state r)) := by
  refine ⟨fun j hj => intMixInput_of_ne RC _ r j hj, ?_, ?_, fun h => ?_, fun h => ?_⟩
  · rw [intMixInput_zero]
    interval_cases r <;> simp
  · interval_cases r <;> simp [intSbox7_pow_form]
  · interval_cases r <;> simp
  · subst h
    simp

theorem claim_C8_witness :
    (0 : ℕ) < 22
    ∧ intMixInput (fun _ _ => 0)
        ((populate_row (F := ZMod 2013265921) id id (fun _ _ => 0)
          (fun _ => 2013265920)).internal_rounds 0).state 0 0
      = ((populate_row (F := ZMod 2013265921) id id (fun _ _ => 0)
          (fun _ => 2013265920)).internal_rounds 0).sbox_deg_7 :=
  ⟨by decide,
    (claim_C8_partial_round_frame id id (fun _ _ => 0) (fun _ => 2013265920) 0
      (by decide)).2.1⟩

/-- C5: `generate_trace` on `N` invocations returns a matrix of the fixed
width `NUM_POSEIDON2_WIDE_COLS` regardless of `N`, of height
`nextPowerOfTwo N` (which is 1, a single all-zero row, when `N = 0`), and
adds no padding when `N` is already a power of two.  The padding helper
lives outside the provided sources and is modelled from the spec. -/
theorem claim_C5_matrix_shape (input output : ExecutionRecord F) :
    ((generate_trace extLin intLin RC input output).1).width = NUM_POSEIDON2_WIDE_COLS
    ∧ ((generate_trace extLin intLin RC input output).1).height
        = next_power_of_two input.poseidon2_events.length
    ∧ (input.poseidon2_events.length = 0 →
        ((generate_trace extLin intLin RC input output).1).height = 1
        ∧ ((generate_trace extLin intLin RC input output).1).values
            = List.replicate NUM_POSEIDON2_WIDE_COLS 0)
    ∧ (∀ k : ℕ, input.poseidon2_events.length = 2 ^ k →
        ((generate_trace extLin intLin RC input output).1).values
          = traceValues extLin intLin RC input.poseidon2_events) := by
  have hN : NUM_POSEIDON2_WIDE_COLS ≠ 0 := by
    norm_num [NUM_POSEIDON2_WIDE_COLS, NUM_EXTERNAL_ROUNDS, NUM_INTERNAL_ROUNDS, WIDTH]
  have hv : ((generate_trace extLin intLin RC input output).1).values
      = pad_to_power_of_two NUM_POSEIDON2_WIDE_COLS
          (traceValues extLin intLin RC input.poseidon2_events) := rfl
  have hw : ((generate_trace extLin intLin RC input output).1).width
      = NUM_POSEIDON2_WIDE_COLS := rfl
  have hlen := traceValues_length extLin intLin RC input.poseidon2_events
  have hplen : ((generate_trace extLin intLin RC input output).1).values.length
      = next_power_of_two input.poseidon2_events.length * NUM_POSEIDON2_WIDE_COLS := by
    rw [hv]
    exact pad_to_power_of_two_length _ _ hN _ hlen
  have hheight : ((generate_trace extLin intLin RC input output).1).height
      = next_power_of_two input.poseidon2_events.length := by
    unfold RowMajorMatrix.height
    rw [hplen, hw, Nat.mul_div_cancel _ (Nat.pos_of_ne_zero hN)]
  refine ⟨hw, hheight,
    fun h0 => ⟨by rw [hheight, h0, next_power_of_two_zero], ?_⟩, fun k hk => ?_⟩
  · have he : input.poseidon2_events = [] := List.length_eq_zero.mp h0
    rw [hv, he, traceValues_nil]
    unfold pad_to_power_of_two
    simp [next_power_of_two_zero]
  · rw [hv]
    unfold pad_to_power_of_two
    rw [hlen, hk, Nat.mul_div_cancel _ (Nat.pos_of_ne_zero hN), next_power_of_two_pow]
    simp

theorem claim_C5_witness :
    ([⟨fun _ => (2013265920 : ZMod 2013265921)⟩] : List (Poseidon2Event (ZMod 2013265921))).length
        = 2 ^ (0 : ℕ)
    ∧ ((generate_trace (F := ZMod 2013265921) id id (fun _ _ => 0)
          ⟨[⟨fun _ => 2013265920⟩]⟩ ⟨[]⟩).1).values
        = traceValues id id (fun _ _ => 0) [⟨fun _ => 2013265920⟩] :=
  ⟨rfl,
    (claim_C5_matrix_shape id id (fun _ _ => 0) ⟨[⟨fun _ => 2013265920⟩]⟩ ⟨[]⟩).2.2.2 0 rfl⟩

/-- C6: every row of the returned matrix at index `≥ N` is entirely
zero-valued, and the value buffer is exactly the `N` real rows (in
invocation order) followed by the all-zero padding. -/
theorem claim_C6_padding_zero (input output : ExecutionRecord F) (i j : ℕ)
    (hi : input.poseidon2_events.length ≤ i) :
    ((generate_trace extLin intLin RC input output).1).entry i j = 0
    ∧ ((generate_trace extLin intLin RC input output).1).values.take
        (input.poseidon2_events.length * NUM_POSEIDON2_WIDE_COLS)
        = traceValues extLin intLin RC input.poseidon2_events
    ∧ ((generate_trace extLin intLin RC input output).1).values.drop
        (input.poseidon2_events.length * NUM_POSEIDON2_WIDE_COLS)
        = List.replicate
            (next_power_of_two input.poseidon2_events.length * NUM_POSEIDON2_WIDE_COLS
              - input.poseidon2_events.length * NUM_POSEIDON2_WIDE_COLS) 0 := by
  have hN : 0 < NUM_POSEIDON2_WIDE_COLS := by
    norm_num [NUM_POSEIDON2_WIDE_COLS, NUM_EXTERNAL_ROUNDS, NUM_INTERNAL_ROUNDS, WIDTH]
  have hlen := traceValues_length extLin intLin RC input.poseidon2_events
  have hv : ((generate_trace extLin intLin RC input output).1).values
      = traceValues extLin intLin RC input.poseidon2_events
          ++ List.replicate
              (next_power_of_two input.poseidon2_events.length * NUM_POSEIDON2_WIDE_COLS
                - input.poseidon2_events.length * NUM_POSEIDON2_WIDE_COLS) 0 := by
    show pad_to_power_of_two _ _ = _
    unfold pad_to_power_of_two
    rw [hlen, Nat.mul_div_cancel _ hN]
  refine ⟨?_, ?_, ?_⟩
  · have hge : (traceValues extLin intLin RC input.poseidon2_events).length
        ≤ i * NUM_POSEIDON2_WIDE_COLS + j := by
      rw [hlen]
      exact le_trans (Nat.mul_le_mul_right _ hi) (Nat.le_add_right _ _)
    unfold RowMajorMatrix.entry
    rw [show ((generate_trace extLin intLin RC input output).1).width
        = NUM_POSEIDON2_WIDE_COLS from rfl]
    rw [hv, List.getD_append_right _ _ _ _ hge, getD_replicate_zero]
  · rw [hv, ← hlen]
    exact List.take_left _ _
  · rw [hv, ← hlen]
    exact List.drop_left _ _

theorem claim_C6_witness :
    (([⟨fun _ => (2013265920 : ZMod 2013265921)⟩]
        : List (Poseidon2Event (ZMod 2013265921))).length ≤ 1)
    ∧ ((generate_trace (F := ZMod 2013265921) id id (fun _ _ => 0)
          ⟨[⟨fun _ => 2013265920⟩]⟩ ⟨[]⟩).1).entry 1 0 = 0 :=
  ⟨by decide,
    (claim_C6_padding_zero id id (fun _ _ => 0) ⟨[⟨fun _ => 2013265920⟩]⟩ ⟨[]⟩ 1 0
      (by decide)).1⟩

/-- C7: trace building is composable — the rows (and the flat unpadded
value buffer) of a concatenated invocation sequence are the concatenation
of the rows of the two halves, and each row is a function of its own
invocation only: the `i`-th row equals the row populated from the `i`-th
invocation alone. -/
theorem claim_C7_composability (A B : List (Poseidon2Event F)) :
    traceRows extLin intLin RC (A ++ B)
      = traceRows extLin intLin RC A ++ traceRows extLin intLin RC B
    ∧ traceValues extLin intLin RC (A ++ B)
      = traceValues extLin intLin RC A ++ traceValues extLin intLin RC B
    ∧ (∀ (events : List (Poseidon2Event F)) (i : ℕ),
        (traceRows extLin intLin RC events)[i]?
          = (events[i]?).map fun e => populate_row extLin intLin RC e.input) := by
  refine ⟨?_, traceValues_append extLin intLin RC A B, fun events i => ?_⟩
  · simp only [traceRows, List.map_append]
  · simp only [traceRows, List.getElem?_map]

/-- C9: the chip's activation predicate `MachineAir::included` returns
`true` exactly when the record holds at least one Poseidon2 invocation,
so a record with zero invocations leads the composing machine to omit
the chip. -/
theorem claim_C9_included_iff (record : ExecutionRecord F) :
    included record = true ↔ record.poseidon2_events ≠ [] := by
  rcases record with ⟨events⟩
  cases events <;> simp [included]

/-- C10: `generate_trace` ignores its second (`&mut` output)
`ExecutionRecord` argument: the returned matrix is the same for any
contents of that record, and the record comes back exactly as it went in;
the input record, passed by shared reference, is untouched as well. -/
theorem claim_C10_output_record_unused (input out out' : ExecutionRecord F) :
    (generate_trace extLin intLin RC input out).1
        = (generate_trace extLin intLin RC input out').1
    ∧ (generate_trace extLin intLin RC input out).2 = out :=
  ⟨rfl, rfl⟩

end Claims

/-- A trace row over the Baby Bear field that is all zeroes except that
external round 0's `sbox_deg_3` column at lane 0 holds 1; it violates the
degree-3 sbox identity of the required constraint set. -/
def badRow : Poseidon2WideCols (ZMod 2013265921) :=
  { zeroCols with
      external_rounds := Function.update (zeroCols (F := ZMod 2013265921)).external_rounds 0
        { state := fun _ => 0, sbox_deg_3 := fun j => if j = 0 then 1 else 0,
          sbox_deg_7 := fun _ => 0 } }

/-- C1: the constraint predicate exposed to the proving engine is claimed
to enforce every identity of the §4.4 constraint set against a single
trace row, but `Air::eval` for `Poseidon2WideChip` only loads the current
row and asserts nothing.  Hence every row satisfies the constraint set
the code actually emits — including `badRow`, which violates the required
degree-3 sbox identity (`specConstraintsHold`, modelled from the spec). -/
theorem claim_C1_eval_enforces_nothing :
    evalConstraintsHold badRow
    ∧ ¬ specConstraintsHold id id (fun _ _ => 0) badRow := by
  constructor
  · intro e he
    simp [evalAssertedExprs] at he
  · unfold specConstraintsHold
    decide

end Poseidon2Wide
